import Mathlib

/-!
Verification development for the surface-cutting-optimizer repository.

The Python sources are embedded shallowly over `ℚ`:

* floating point numbers become rationals (`math.pi` becomes the exact
  rational value of the IEEE-754 double that Python uses);
* comparisons of the form `math.sqrt d ≤ r` (with `d, r ≥ 0`) are embedded
  as the equivalent `d ≤ r ^ 2`;
* Python's `sorted` (a stable sort) is embedded as `List.insertionSort`,
  which is also stable, hence produces the same list for every total
  preorder key;
* rotations are restricted to the multiples of 90° that the system uses
  (`0, 90, 180, 270`), for which sines and cosines are exact.
-/

namespace SCO

/-- The exact rational value of the IEEE-754 double `math.pi` used by the
Python sources (`884279719003555 / 2^48`). -/
def piQ : ℚ := 884279719003555 / 281474976710656

/-- Minimum of a list of rationals, `0` on the empty list; mirrors Python's
`min` on the non-empty lists the geometry kernel applies it to. -/
def listMin : List ℚ → ℚ
  | [] => 0
  | x :: xs => xs.foldl min x

/-- Maximum of a list of rationals, `0` on the empty list; mirrors Python's
`max` on the non-empty lists the geometry kernel applies it to. -/
def listMax : List ℚ → ℚ
  | [] => 0
  | x :: xs => xs.foldl max x

/-- Material tags, from `core/models.py` (`MaterialType`). -/
inductive MaterialType where
  | glass | metal | wood | plastic | fabric | leather | paper | ceramic | composite
deriving DecidableEq, Repr

/-- Order priorities, from `core/models.py` (`Priority`). -/
inductive Priority where
  | low | medium | high | urgent
deriving DecidableEq, Repr

/-- The integer weight of a priority (`Priority.weight` / the first component
of `Priority.value` in `core/models.py`). -/
def Priority.weight : Priority → ℕ
  | .low => 1
  | .medium => 2
  | .high => 3
  | .urgent => 4

/-- Rotations actually used by the system: multiples of 90 degrees
(`§` the spec's data model; circles ignore rotation). -/
inductive Rot where
  | r0 | r90 | r180 | r270
deriving DecidableEq, Repr

/-- Exact cosine of a multiple of 90 degrees (the value of
`math.cos(math.radians θ)` for these angles). -/
def Rot.cosQ : Rot → ℚ
  | .r0 => 1
  | .r90 => 0
  | .r180 => -1
  | .r270 => 0

/-- Exact sine of a multiple of 90 degrees (the value of
`math.sin(math.radians θ)` for these angles). -/
def Rot.sinQ : Rot → ℚ
  | .r0 => 0
  | .r90 => 1
  | .r180 => 0
  | .r270 => -1

/-- Shapes, from `core/geometry.py`: the tagged variant over rectangles
(`Rectangle(width, height, x, y, rotation)`) and circles
(`Circle(radius, x, y)`; circles carry no rotation). -/
inductive Shape where
  | rect (width height x y : ℚ) (rotation : Rot)
  | circle (radius x y : ℚ)
deriving DecidableEq, Repr

/-- The `x` attribute of a shape. -/
def Shape.x : Shape → ℚ
  | .rect _ _ x _ _ => x
  | .circle _ x _ => x

/-- The `y` attribute of a shape. -/
def Shape.y : Shape → ℚ
  | .rect _ _ _ y _ => y
  | .circle _ _ y => y

/-- `getattr(shape, 'width', 0)` as used by `Optimizer._validate_result`:
the `width` attribute when present, `0` for circles. -/
def Shape.widthAttr : Shape → ℚ
  | .rect w _ _ _ _ => w
  | .circle _ _ _ => 0

/-- `getattr(shape, 'height', 0)` as used by `Optimizer._validate_result`. -/
def Shape.heightAttr : Shape → ℚ
  | .rect _ h _ _ _ => h
  | .circle _ _ _ => 0

/-- A copy of the shape with its position replaced, mirroring
`copy.deepcopy(shape); shape.x = x; shape.y = y` in the algorithms. -/
def Shape.withPos (s : Shape) (x y : ℚ) : Shape :=
  match s with
  | .rect w h _ _ r => .rect w h x y r
  | .circle r _ _ => .circle r x y

/-- `Shape.area` from `core/geometry.py`: `width * height` for rectangles,
`math.pi * radius ** 2` for circles. -/
def Shape.area : Shape → ℚ
  | .rect w h _ _ _ => w * h
  | .circle r _ _ => piQ * r ^ 2

/-- `Rectangle._get_corners` from `core/geometry.py`: the untransformed
corner list when `rotation == 0`, otherwise the corners rotated around the
rectangle's center. -/
def rectCorners (w h x y : ℚ) (rot : Rot) : List (ℚ × ℚ) :=
  match rot with
  | .r0 => [(x, y), (x + w, y), (x + w, y + h), (x, y + h)]
  | _ =>
    let cx := x + w / 2
    let cy := y + h / 2
    let hw := w / 2
    let hh := h / 2
    let c := rot.cosQ
    let s := rot.sinQ
    [(-hw, -hh), (hw, -hh), (hw, hh), (-hw, hh)].map
      (fun d => (cx + (d.1 * c - d.2 * s), cy + (d.1 * s + d.2 * c)))

/-- `Rectangle.bounding_box` from `core/geometry.py`. -/
def rectBoundingBox (w h x y : ℚ) (rot : Rot) : ℚ × ℚ × ℚ × ℚ :=
  match rot with
  | .r0 => (x, y, x + w, y + h)
  | _ =>
    let cs := rectCorners w h x y rot
    let xs := cs.map Prod.fst
    let ys := cs.map Prod.snd
    (listMin xs, listMin ys, listMax xs, listMax ys)

/-- `Shape.bounding_box` from `core/geometry.py`: for circles
`(x - r, y - r, x + r, y + r)` — the circle's `(x, y)` is its center. -/
def Shape.bounding_box : Shape → ℚ × ℚ × ℚ × ℚ
  | .rect w h x y rot => rectBoundingBox w h x y rot
  | .circle r x y => (x - r, y - r, x + r, y + r)

/-- `Rectangle.contains_point` from `core/geometry.py`: direct bound checks
when `rotation == 0`, otherwise the point is moved to the rectangle's local
frame by rotating with `-rotation` (so with cosine `cos θ` and sine
`-sin θ`, exact for multiples of 90°). -/
def rectContainsPoint (w h rx ry : ℚ) (rot : Rot) (px py : ℚ) : Bool :=
  match rot with
  | .r0 => decide (rx ≤ px ∧ px ≤ rx + w ∧ ry ≤ py ∧ py ≤ ry + h)
  | _ =>
    let cx := rx + w / 2
    let cy := ry + h / 2
    let tx := px - cx
    let ty := py - cy
    let c := rot.cosQ
    let s := -rot.sinQ
    let lx := tx * c - ty * s
    let ly := tx * s + ty * c
    decide (-(w / 2) ≤ lx ∧ lx ≤ w / 2 ∧ -(h / 2) ≤ ly ∧ ly ≤ h / 2)

/-- The squared distance from a point to a segment, embedding
`Circle._point_to_segment_distance` from `core/geometry.py` with the final
`sqrt` dropped (the caller only compares the distance with a nonnegative
radius, for which comparing squares is equivalent). -/
def segmentDistSq (px py x1 y1 x2 y2 : ℚ) : ℚ :=
  let a := px - x1
  let b := py - y1
  let c := x2 - x1
  let d := y2 - y1
  let dot := a * c + b * d
  let lenSq := c * c + d * d
  if lenSq = 0 then a * a + b * b
  else
    let param := dot / lenSq
    let q : ℚ × ℚ :=
      if param < 0 then (x1, y1)
      else if param > 1 then (x2, y2)
      else (x1 + param * c, y1 + param * d)
    (px - q.1) * (px - q.1) + (py - q.2) * (py - q.2)

/-- `Circle._overlaps_rectangle` from `core/geometry.py`: overlap holds if
the rectangle contains the circle's center, or some rectangle edge is at
distance at most the radius from the center (`dist <= radius`, embedded as
the equivalent squared comparison). -/
def circleOverlapsRect (r cx cy : ℚ) (w h rx ry : ℚ) (rot : Rot) : Bool :=
  if rectContainsPoint w h rx ry rot cx cy then true
  else
    let cs := rectCorners w h rx ry rot
    (List.range 4).any (fun i =>
      let p1 := cs.getD i (0, 0)
      let p2 := cs.getD ((i + 1) % 4) (0, 0)
      decide (segmentDistSq cx cy p1.1 p1.2 p2.1 p2.2 ≤ r ^ 2))

/-- One normalized separating-axis candidate from an edge `p → q`, as built
in `Rectangle._overlaps_rectangle`: the perpendicular `(-ey, ex)` divided by
its Euclidean length, skipped when the length is `0`.  For the 90°-multiple
rotations of this model every edge is axis-aligned, so the Euclidean length
`sqrt(ey² + ex²)` equals `|ey| + |ex|` exactly. -/
def axisOf (p q : ℚ × ℚ) : Option (ℚ × ℚ) :=
  let ex := q.1 - p.1
  let ey := q.2 - p.2
  let ax := -ey
  let ay := ex
  let len := |ax| + |ay|
  if 0 < len then some (ax / len, ay / len) else none

/-- The four axis candidates contributed by one rectangle's corner list in
`Rectangle._overlaps_rectangle` (edges `i → (i+1) % 4`). -/
def edgeAxes (cs : List (ℚ × ℚ)) : List (ℚ × ℚ) :=
  ((List.range 4).map (fun i => axisOf (cs.getD i (0, 0)) (cs.getD ((i + 1) % 4) (0, 0)))).reduceOption

/-- Projections of a corner list onto an axis (`corner · axis`). -/
def projList (cs : List (ℚ × ℚ)) (ax : ℚ × ℚ) : List ℚ :=
  cs.map (fun c => c.1 * ax.1 + c.2 * ax.2)

/-- The separation test of `Rectangle._overlaps_rectangle` on one axis:
the projections are disjoint when `max1 < min2 or max2 < min1`. -/
def separatedOn (cs1 cs2 : List (ℚ × ℚ)) (ax : ℚ × ℚ) : Bool :=
  let p1 := projList cs1 ax
  let p2 := projList cs2 ax
  decide (listMax p1 < listMin p2 ∨ listMax p2 < listMin p1)

/-- `Rectangle._overlaps_rectangle` from `core/geometry.py`: the Separating
Axis Theorem over the edge normals of both rectangles; the rectangles
overlap when no axis separates them. -/
def rectOverlapsRect (w1 h1 x1 y1 : ℚ) (r1 : Rot) (w2 h2 x2 y2 : ℚ) (r2 : Rot) : Bool :=
  let cs1 := rectCorners w1 h1 x1 y1 r1
  let cs2 := rectCorners w2 h2 x2 y2 r2
  let axes := edgeAxes cs1 ++ edgeAxes cs2
  axes.all (fun ax => !separatedOn cs1 cs2 ax)

/-- `Shape.overlaps` from `core/geometry.py`: rectangle–rectangle uses the
SAT test, rectangle–circle delegates to the circle's implementation,
circle–circle compares the center distance with the radius sum
(`distance <= r1 + r2`, embedded as the equivalent squared comparison). -/
def Shape.overlaps : Shape → Shape → Bool
  | .rect w1 h1 x1 y1 r1, .rect w2 h2 x2 y2 r2 => rectOverlapsRect w1 h1 x1 y1 r1 w2 h2 x2 y2 r2
  | .rect w h x y rot, .circle r cx cy => circleOverlapsRect r cx cy w h x y rot
  | .circle r cx cy, .rect w h x y rot => circleOverlapsRect r cx cy w h x y rot
  | .circle r1 cx1 cy1, .circle r2 cx2 cy2 =>
    decide ((cx2 - cx1) ^ 2 + (cy2 - cy1) ^ 2 ≤ (r1 + r2) ^ 2)

/-- Default `MaterialProperties.cost_per_area` for a material, from
`MaterialProperties.get_default_properties` in `core/models.py`
(materials without an entry fall back to the dataclass default `0.0`). -/
def MaterialType.defaultCostPerArea : MaterialType → ℚ
  | .glass => 15
  | .metal => 25
  | .wood => 10
  | .plastic => 8
  | .fabric => 20
  | _ => 0

/-- `Stock` from `core/models.py` (the fields the optimization core reads). -/
structure Stock where
  id : String
  width : ℚ
  height : ℚ
  thickness : ℚ := 6
  material_type : MaterialType := .glass
  cost_per_unit : ℚ := 0
deriving DecidableEq, Repr

/-- `Stock.area`: `width * height`. -/
def Stock.area (s : Stock) : ℚ := s.width * s.height

/-- `Stock.total_cost` from `core/models.py`: the unit cost when positive,
otherwise `area_m2 * material_properties.cost_per_area`. -/
def Stock.total_cost (s : Stock) : ℚ :=
  if 0 < s.cost_per_unit then s.cost_per_unit
  else s.area / 1000000 * s.material_type.defaultCostPerArea

/-- `Order` from `core/models.py` (the fields the optimization core reads). -/
structure Order where
  id : String
  shape : Shape
  quantity : ℕ := 1
  priority : Priority := .medium
  material_type : MaterialType := .glass
  thickness : ℚ := 6
  tolerance : ℚ := 1
deriving DecidableEq, Repr

/-- `Order.total_area`: `shape.area() * quantity`. -/
def Order.total_area (o : Order) : ℚ := o.shape.area * o.quantity

/-- `PlacedShape` from `core/models.py` (the fields the core reads). -/
structure PlacedShape where
  order_id : String
  shape : Shape
  stock_id : String
deriving DecidableEq, Repr

/-- `CuttingResult` from `core/models.py` (the fields the core reads);
the counts are integers as in Python, so that the sign checks of
`Optimizer._validate_result` keep their meaning. -/
structure CuttingResult where
  total_stock_used : ℤ := 0
  total_orders_fulfilled : ℤ := 0
  efficiency_percentage : ℚ := 0
  placed_shapes : List PlacedShape := []
  unfulfilled_orders : List Order := []
  algorithm_used : String := ""
  total_cost : ℚ := 0
deriving DecidableEq, Repr

/-- `CuttingResult.fulfillment_rate` from `core/models.py`: with
`total = total_orders_fulfilled + len(unfulfilled_orders)`, the rate is
`total_orders_fulfilled / total * 100` when `total > 0`, else `100.0`. -/
def CuttingResult.fulfillment_rate (r : CuttingResult) : ℚ :=
  let total : ℤ := r.total_orders_fulfilled + r.unfulfilled_orders.length
  if 0 < total then (r.total_orders_fulfilled : ℚ) / (total : ℚ) * 100 else 100

/-- `OptimizationConfig` from `core/models.py` (the fields the core reads,
with the source's defaults). -/
structure OptimizationConfig where
  allow_rotation : Bool := true
  cutting_width : ℚ := 3
  min_waste_size : ℚ := 100
  max_computation_time : ℚ := 60
  prioritize_orders : Bool := true
  algorithm_name : String := "bottom_left"
  placement_precision : ℚ := 1 / 10
  waste_penalty_factor : ℚ := 1
deriving DecidableEq, Repr

/-- `OptimizationConfig.validate` from `core/models.py`: the list of
configuration issues. -/
def OptimizationConfig.validate (c : OptimizationConfig) : List String :=
  (if c.cutting_width < 0 then ["Cutting width cannot be negative"] else []) ++
  (if c.max_computation_time ≤ 0 then ["Max computation time must be positive"] else []) ++
  (if c.placement_precision ≤ 0 then ["Placement precision must be positive"] else []) ++
  (if ¬ (0 ≤ c.waste_penalty_factor ∧ c.waste_penalty_factor ≤ 10) then
    ["Waste penalty factor should be between 0 and 10"] else [])

/-- The exception classes of `core/exceptions.py`. -/
inductive ErrKind where
  | invalidDimensions | invalidShape | insufficientStock
  | optimizationError | algorithmError | validationError
deriving DecidableEq, Repr

/-- The per-stock loop of `validate_stocks` in `core/validators.py`. -/
def checkStocksList : List Stock → Except ErrKind Unit
  | [] => .ok ()
  | s :: rest =>
    if s.width ≤ 0 ∨ s.height ≤ 0 then .error .validationError
    else if s.thickness ≤ 0 then .error .validationError
    else checkStocksList rest

/-- `validate_stocks` from `core/validators.py`: rejects an empty stock
list, then rejects non-positive dimensions or thickness; every `raise` is a
`ValidationError`. -/
def validate_stocks (stocks : List Stock) : Except ErrKind Unit :=
  match stocks with
  | [] => .error .validationError
  | _ => checkStocksList stocks

/-- The per-order loop of `validate_orders` in `core/validators.py`. -/
def checkOrdersList : List Order → Except ErrKind Unit
  | [] => .ok ()
  | o :: rest =>
    if o.quantity ≤ 0 then .error .validationError
    else if o.shape.area ≤ 0 then .error .validationError
    else checkOrdersList rest

/-- `validate_orders` from `core/validators.py`: rejects an empty order
list, then rejects non-positive quantities or areas; every `raise` is a
`ValidationError`. -/
def validate_orders (orders : List Order) : Except ErrKind Unit :=
  match orders with
  | [] => .error .validationError
  | _ => checkOrdersList orders

/-- The distinct elements of a list in order of first occurrence — the key
insertion order of a Python `dict` built by appending, as in
`validate_stock_order_compatibility`'s grouping loops. -/
def firstOccurrences : List MaterialType → List MaterialType
  | [] => []
  | m :: ms => m :: (firstOccurrences ms).filter (fun x => x ≠ m)

/-- Total stock area of a material: the sum the compatibility validator
computes over the group `material_stocks[material_type]`. -/
def totalStockArea (stocks : List Stock) (m : MaterialType) : ℚ :=
  ((stocks.filter (fun s => s.material_type = m)).map Stock.area).sum

/-- Total order area of a material: the sum the compatibility validator
computes over the group `material_orders[material_type]`. -/
def totalOrderArea (orders : List Order) (m : MaterialType) : ℚ :=
  ((orders.filter (fun o => o.material_type = m)).map Order.total_area).sum

/-- The per-material loop of `validate_stock_order_compatibility` in
`core/validators.py`: a material with no stocks raises `ValidationError`
("No stocks available ..."), a material whose order area exceeds its stock
area raises `ValidationError` ("Insufficient ... stock area ..."). -/
def checkMaterials (stocks : List Stock) (orders : List Order) :
    List MaterialType → Except ErrKind Unit
  | [] => .ok ()
  | m :: ms =>
    if (stocks.filter (fun s => s.material_type = m)).isEmpty then .error .validationError
    else if totalStockArea stocks m < totalOrderArea orders m then .error .validationError
    else checkMaterials stocks orders ms

/-- `validate_stock_order_compatibility` from `core/validators.py`:
iterates the materials present in the orders (in first-occurrence order,
matching Python dict insertion order) and checks each one. -/
def validate_stock_order_compatibility (stocks : List Stock) (orders : List Order) :
    Except ErrKind Unit :=
  checkMaterials stocks orders (firstOccurrences (orders.map Order.material_type))

/-- The lookup `{stock.id: stock for stock in stocks}.get sid` used by
`Optimizer._validate_result`: with duplicate ids the later entry wins, so we
search the reversed list. -/
def stockLookup (stocks : List Stock) (sid : String) : Option Stock :=
  stocks.reverse.find? (fun s => s.id = sid)

/-- The per-shape loop of `Optimizer._validate_result` in
`core/optimizer.py`: a placed shape must reference a known stock and must
satisfy `x ≥ 0 ∧ y ≥ 0 ∧ x + getattr(shape,'width',0) ≤ stock.width ∧
y + getattr(shape,'height',0) ≤ stock.height` (so a circle is only checked
at its `(x, y)` attribute, its `width`/`height` defaulting to `0`). -/
def checkPlacedShapes (stocks : List Stock) : List PlacedShape → Except ErrKind Unit
  | [] => .ok ()
  | ps :: rest =>
    match stockLookup stocks ps.stock_id with
    | none => .error .optimizationError
    | some stock =>
      if ps.shape.x < 0 ∨ ps.shape.y < 0 ∨
          stock.width < ps.shape.x + ps.shape.widthAttr ∨
          stock.height < ps.shape.y + ps.shape.heightAttr then
        .error .optimizationError
      else checkPlacedShapes stocks rest

/-- `Optimizer._validate_result` from `core/optimizer.py`: sign checks on
the counts, the efficiency range check, and the per-shape bound checks;
every `raise` is an `OptimizationError`. -/
def validate_result (result : CuttingResult) (stocks : List Stock) : Except ErrKind Unit :=
  if result.total_stock_used < 0 then .error .optimizationError
  else if result.total_orders_fulfilled < 0 then .error .optimizationError
  else if result.efficiency_percentage < 0 ∨ 100 < result.efficiency_percentage then
    .error .optimizationError
  else checkPlacedShapes stocks result.placed_shapes

/-- The cost assignment in `Optimizer.optimize`:
`sum(stock.total_cost for stock in stocks if any(ps.stock_id == stock.id ...))`. -/
def resultTotalCost (stocks : List Stock) (result : CuttingResult) : ℚ :=
  ((stocks.filter (fun s => result.placed_shapes.any (fun ps => ps.stock_id = s.id))).map
    Stock.total_cost).sum

/-- `Optimizer.optimize` from `core/optimizer.py`, with the algorithm passed
as a function: configuration validation, the three input validators, the
algorithm run, the cost assignment, and the strict result validation.  Every
exception escaping the `try` block is re-raised as an `OptimizationError`,
so each failing branch produces that kind; there is no fallback path. -/
def optimizer_optimize (algo : List Stock → List Order → OptimizationConfig → CuttingResult)
    (stocks : List Stock) (orders : List Order) (config : OptimizationConfig) :
    Except ErrKind CuttingResult :=
  if ¬ config.validate.isEmpty then .error .optimizationError
  else match validate_stocks stocks with
  | .error _ => .error .optimizationError
  | .ok _ => match validate_orders orders with
    | .error _ => .error .optimizationError
    | .ok _ => match validate_stock_order_compatibility stocks orders with
      | .error _ => .error .optimizationError
      | .ok _ =>
        let run := algo stocks orders config
        let result := { run with total_cost := resultTotalCost stocks run }
        match validate_result result stocks with
        | .error _ => .error .optimizationError
        | .ok _ => .ok result

/-- `BaseAlgorithm.preprocess_orders` from `algorithms/base.py`:
`sorted(orders, key=lambda o: o.priority.value, reverse=True)` when
`config.prioritize_orders`, else a copy of the input.  Python's `sorted` is
a stable sort, embedded as the stable `List.insertionSort` with the
descending-weight total preorder (stable sorts agree on every input). -/
def preprocess_orders (orders : List Order) (config : OptimizationConfig) : List Order :=
  if config.prioritize_orders then
    orders.insertionSort (fun a b => b.priority.weight ≤ a.priority.weight)
  else orders

/-- `BaseAlgorithm.preprocess_stocks` from `algorithms/base.py`:
`sorted(stocks, key=lambda s: s.area, reverse=True)`, embedded as the stable
`List.insertionSort` with the descending-area total preorder. -/
def preprocess_stocks (stocks : List Stock) (_config : OptimizationConfig) : List Stock :=
  stocks.insertionSort (fun a b => b.area ≤ a.area)

/-- `BottomLeftAlgorithm._get_y_positions` from
`algorithms/basic/bottom_left.py`: `{0}` together with the top of each
occupied rectangle (`y + height`) and `y + radius` for each occupied circle,
deduplicated, sorted ascending, and filtered by the shape fitting above. -/
def get_y_positions (stock : Stock) (occupied : List Shape) (shape : Shape) : List ℚ :=
  let positions := 0 :: occupied.map (fun occ =>
    match occ with
    | .rect _ h _ y _ => y + h
    | .circle r _ y => y + r)
  let maxY :=
    match shape with
    | .rect _ h _ _ _ => stock.height - h
    | .circle r _ _ => stock.height - r * 2
  (positions.dedup.insertionSort (· ≤ ·)).filter (fun y => y ≤ maxY)

/-- `BottomLeftAlgorithm._get_x_positions` from
`algorithms/basic/bottom_left.py` (its `y` parameter is unused in the
source and kept here): `{0}` together with the right edge of each occupied
rectangle (`x + width`) and `x + radius` for each occupied circle,
deduplicated, sorted ascending, and filtered by the shape fitting to the
right. -/
def get_x_positions (stock : Stock) (occupied : List Shape) (shape : Shape) (_y : ℚ) : List ℚ :=
  let positions := 0 :: occupied.map (fun occ =>
    match occ with
    | .rect w _ x _ _ => x + w
    | .circle r x _ => x + r)
  let maxX :=
    match shape with
    | .rect w _ _ _ _ => stock.width - w
    | .circle r _ _ => stock.width - r * 2
  (positions.dedup.insertionSort (· ≤ ·)).filter (fun x => x ≤ maxX)

/-- `BottomLeftAlgorithm._is_valid_position` from
`algorithms/basic/bottom_left.py`: place a copy of the shape at `(x, y)`,
reject when it exceeds the stock's width/height (for a circle via
`x + 2·radius > width` etc.), then reject when it overlaps any occupied
shape.  The `config` parameter is received but never read by the source. -/
def is_valid_position (stock : Stock) (shape : Shape) (x y : ℚ)
    (occupied : List Shape) (_config : OptimizationConfig) : Bool :=
  let temp := shape.withPos x y
  let inBounds :=
    match temp with
    | .rect w h tx ty _ => decide (tx + w ≤ stock.width ∧ ty + h ≤ stock.height)
    | .circle r tx ty => decide (tx + r * 2 ≤ stock.width ∧ ty + r * 2 ≤ stock.height)
  inBounds && occupied.all (fun occ => !(temp.overlaps occ))

/-- The update condition of the candidate loop in
`BottomLeftAlgorithm._find_bottom_left_position`:
`y < best_y or ((y == best_y and x < best_position[0]) if best_position
else True)`; `best_y` always equals the second component of
`best_position`, and `best_position = None` stands for `best_y = inf`. -/
def blBetter (best : Option (ℚ × ℚ)) (x y : ℚ) : Bool :=
  match best with
  | none => true
  | some bp => decide (y < bp.2) || (decide (y = bp.2) && decide (x < bp.1))

/-- The candidate scan of one orientation in
`BottomLeftAlgorithm._find_bottom_left_position`: try every `y` then every
`x` candidate, updating the best position whenever the position is valid
and better (lower `y`, then lower `x`). -/
def blScanOrientation (stock : Stock) (occupied : List Shape)
    (config : OptimizationConfig) (oriented : Shape)
    (best : Option (ℚ × ℚ)) : Option (ℚ × ℚ) :=
  (get_y_positions stock occupied oriented).foldl (fun b y =>
    (get_x_positions stock occupied oriented y).foldl (fun b2 x =>
      if is_valid_position stock oriented x y occupied config && blBetter b2 x y then
        some (x, y)
      else b2) b) best

/-- `BottomLeftAlgorithm._find_bottom_left_position` from
`algorithms/basic/bottom_left.py`: try the shape and (when rotation is
allowed and the shape is a rectangle) a width/height-swapped copy, skip an
orientation that cannot fit the stock at all, and scan the candidate grid
of each remaining orientation. -/
def find_bottom_left_position (stock : Stock) (shape : Shape)
    (occupied : List Shape) (config : OptimizationConfig) : Option (ℚ × ℚ) :=
  let orientations := shape ::
    (if config.allow_rotation then
      match shape with
      | .rect w h x y r => [Shape.rect h w x y r]
      | .circle _ _ _ => []
    else [])
  orientations.foldl (fun best oriented =>
    let fits :=
      match oriented with
      | .rect w h _ _ _ => decide (w ≤ stock.width ∧ h ≤ stock.height)
      | .circle r _ _ => decide (r * 2 ≤ stock.width ∧ r * 2 ≤ stock.height)
    if fits then blScanOrientation stock occupied config oriented best else best) none

/-- Quantity expansion in `BottomLeftAlgorithm._optimize_material` (also
`_expand_orders` of the metaheuristics): one order copy per unit, with ids
`<id>_1, <id>_2, ...` and quantity `1`. -/
def expandOrders (orders : List Order) : List Order :=
  orders.flatMap (fun o => (List.range o.quantity).map (fun i =>
    { o with id := o.id ++ "_" ++ toString (i + 1), quantity := 1 }))

/-- The per-stock occupancy map `stock_occupied = {stock.id: [] ...}` of
`BottomLeftAlgorithm._optimize_material`: an association list keyed by
stock id (duplicate ids collapse to one entry, as in a Python dict). -/
def initOccupancy (stocks : List Stock) : List (String × List Shape) :=
  stocks.foldl (fun acc s => if acc.any (fun p => p.1 = s.id) then acc else acc ++ [(s.id, [])]) []

/-- Reading `stock_occupied[stock.id]`. -/
def occLookup (occ : List (String × List Shape)) (sid : String) : List Shape :=
  ((occ.find? (fun p => p.1 = sid)).map Prod.snd).getD []

/-- `stock_occupied[stock.id].append(placed_shape)`. -/
def occAppend (occ : List (String × List Shape)) (sid : String) (s : Shape) :
    List (String × List Shape) :=
  occ.map (fun p => if p.1 = sid then (p.1, p.2 ++ [s]) else p)

/-- The inner stock loop of `BottomLeftAlgorithm._optimize_material`: try
each stock in order, skip material mismatches, and return the first stock
offering a bottom-left position. -/
def tryStocks (order : Order) (config : OptimizationConfig)
    (occ : List (String × List Shape)) : List Stock → Option (Stock × ℚ × ℚ)
  | [] => none
  | stock :: rest =>
    if order.material_type ≠ stock.material_type then tryStocks order config occ rest
    else
      match find_bottom_left_position stock order.shape (occLookup occ stock.id) config with
      | some pos => some (stock, pos)
      | none => tryStocks order config occ rest

/-- `BottomLeftAlgorithm._optimize_material` from
`algorithms/basic/bottom_left.py`: expand quantities, then place each
expanded order on the first stock with a bottom-left position (the placed
copy keeps the original orientation, as the source re-copies `order.shape`),
accumulating unplaceable orders as unfulfilled. -/
def optimize_material (stocks : List Stock) (orders : List Order)
    (config : OptimizationConfig) : List PlacedShape × List Order :=
  let expanded := expandOrders orders
  let final := expanded.foldl (fun (st : List (String × List Shape) × List PlacedShape × List Order) order =>
    let occ := st.1
    match tryStocks order config occ stocks with
    | some (stock, x, y) =>
      let placedShape := order.shape.withPos x y
      (occAppend occ stock.id placedShape,
       st.2.1 ++ [⟨order.id, placedShape, stock.id⟩],
       st.2.2)
    | none => (occ, st.2.1, st.2.2 ++ [order])) (initOccupancy stocks, [], [])
  (final.2.1, final.2.2)

/-- `s.rsplit('_', 1)[0]`: everything before the last underscore (the whole
string when it has none), used to recover the original order id from an
expanded id. -/
def rsplitUnderscore (s : String) : String :=
  let parts := s.splitOn "_"
  if parts.length ≤ 1 then s else String.intercalate "_" parts.dropLast

/-- The material grouping of `BottomLeftAlgorithm.optimize`: a Python dict
of lists in key insertion order. -/
def groupByMaterial (orders : List Order) : List (MaterialType × List Order) :=
  (firstOccurrences (orders.map Order.material_type)).map
    (fun m => (m, orders.filter (fun o => o.material_type = m)))

/-- `BottomLeftAlgorithm.optimize` from `algorithms/basic/bottom_left.py`:
preprocess orders and stocks, group orders by material, run
`_optimize_material` per material (orders of a material with no stocks go
to unfulfilled), then compute the distinct-used-stock count, the fulfilled
count over distinct original order ids, and the efficiency over the used
stocks. -/
def bottom_left_optimize (stocks : List Stock) (orders : List Order)
    (config : OptimizationConfig) : CuttingResult :=
  let processedOrders := preprocess_orders orders config
  let processedStocks := preprocess_stocks stocks config
  let groups := groupByMaterial processedOrders
  let merged := groups.foldl (fun (st : List PlacedShape × List Order) g =>
    let materialStocks := processedStocks.filter (fun s => s.material_type = g.1)
    if materialStocks.isEmpty then (st.1, st.2 ++ g.2)
    else
      let mr := optimize_material materialStocks g.2 config
      (st.1 ++ mr.1, st.2 ++ mr.2)) ([], [])
  let placed := merged.1
  let usedIds := (placed.map PlacedShape.stock_id).dedup
  let fulfilled := ((placed.map (fun ps => rsplitUnderscore ps.order_id)).dedup).length
  let efficiency :=
    if placed.isEmpty then 0
    else
      let placedArea := (placed.map (fun ps => ps.shape.area)).sum
      let stockArea := ((stocks.filter (fun s => s.id ∈ usedIds)).map Stock.area).sum
      if 0 < stockArea then placedArea / stockArea * 100 else 0
  { algorithm_used := "Bottom-Left Fill"
    placed_shapes := placed
    unfulfilled_orders := merged.2
    total_stock_used := (usedIds.length : ℤ)
    total_orders_fulfilled := (fulfilled : ℤ)
    efficiency_percentage := efficiency }

/-- `BestFitAlgorithm.optimize` from `algorithms/basic/best_fit.py`: the
source is an explicit placeholder that returns an empty result with every
order unfulfilled and never places anything. -/
def best_fit_optimize (_stocks : List Stock) (orders : List Order)
    (_config : OptimizationConfig) : CuttingResult :=
  { algorithm_used := "Best Fit"
    unfulfilled_orders := orders
    total_stock_used := 0
    total_orders_fulfilled := 0
    efficiency_percentage := 0 }

/-- A placement tuple `(order_idx, stock_idx, x, y, rotation)` of the
simulated-annealing solution dictionary in
`algorithms/advanced/simulated_annealing.py`. -/
structure SAPlacement where
  order_idx : ℕ
  stock_idx : ℕ
  x : ℚ
  y : ℚ
  rotation : ℚ
deriving DecidableEq, Repr

/-- The parts of the simulated-annealing solution dictionary read by
`_evaluate_solution`: the placement list and the unplaced order indices. -/
structure SASolution where
  placements : List SAPlacement
  unplaced_orders : List ℕ
deriving DecidableEq, Repr

/-- Python `set.add` on a set represented as a duplicate-free list in
insertion order. -/
def setInsertNat (l : List ℕ) (x : ℕ) : List ℕ :=
  if x ∈ l then l else l ++ [x]

/-- Fallback order for out-of-range indexing (Python would raise; the
theorems about `evaluate_solution` assume in-range indices). -/
def dummyOrder : Order := { id := "", shape := .rect 1 1 0 0 .r0 }

/-- Fallback stock for out-of-range indexing. -/
def dummyStock : Stock := { id := "", width := 1, height := 1 }

/-- `SimulatedAnnealingAlgorithm._evaluate_solution` from
`algorithms/advanced/simulated_annealing.py`: accumulate the placed areas
and the set of used stock indices, sum the used stocks' areas, compute
`efficiency = used_area / stock_area * 100` (0 when no stock area), and
return `(100 - efficiency)/100 + 0.5 * unplaced + 0.1 * stocks_used`
(decimal literals embedded by their decimal value). -/
def evaluate_solution (sol : SASolution) (stocks : List Stock) (orders : List Order) : ℚ :=
  let acc := sol.placements.foldl (fun (st : ℚ × List ℕ) p =>
    (st.1 + (orders.getD p.order_idx dummyOrder).shape.area,
     setInsertNat st.2 p.stock_idx)) (0, [])
  let totalUsedArea := acc.1
  let usedStocks := acc.2
  let totalStockArea := usedStocks.foldl (fun s i => s + (stocks.getD i dummyStock).area) 0
  let efficiency := if 0 < totalStockArea then totalUsedArea / totalStockArea * 100 else 0
  let wastePenalty := (100 - efficiency) / 100
  let unplacedPenalty := (sol.unplaced_orders.length : ℚ) * (1 / 2)
  let stockPenalty := (usedStocks.length : ℚ) * (1 / 10)
  wastePenalty + unplacedPenalty + stockPenalty

/-- `Shape.contains_point` from `core/geometry.py`: for circles the source
compares the center distance with the radius (`sqrt(...) <= radius`),
embedded as the equivalent squared comparison. -/
def Shape.contains_point : Shape → ℚ → ℚ → Bool
  | .rect w h x y rot, px, py => rectContainsPoint w h x y rot px py
  | .circle r cx cy, px, py => decide ((px - cx) ^ 2 + (py - cy) ^ 2 ≤ r ^ 2)

/-- Modelled from the spec (§4.P), for comparison with `is_valid_position`
only: the feasibility test the spec describes, in which every
already-placed shape is first inflated by `cutting_width / 2` on all sides
(a rectangle grows by `k` in width and height around its center, a circle's
radius grows by `k / 2`). -/
def is_valid_position_spec_inflated (stock : Stock) (shape : Shape) (x y : ℚ)
    (occupied : List Shape) (config : OptimizationConfig) : Bool :=
  let k := config.cutting_width
  let inflated := occupied.map (fun occ =>
    match occ with
    | .rect w h ox oy r => Shape.rect (w + k) (h + k) (ox - k / 2) (oy - k / 2) r
    | .circle r ox oy => Shape.circle (r + k / 2) ox oy)
  is_valid_position stock shape x y inflated config

/-- The simulated-annealing cost exactly as the spec states it
(`waste_fraction + 0.5 · unplaced_count + 0.1 · stocks_used`, with
`waste_fraction = (100 - efficiency) / 100` over the distinct stocks
holding placements), written with closed-form sums over `List.dedup`; for
comparison with the loop-accumulating `evaluate_solution`. -/
def spec_sa_cost (sol : SASolution) (stocks : List Stock) (orders : List Order) : ℚ :=
  let usedArea := (sol.placements.map (fun p => (orders.getD p.order_idx dummyOrder).shape.area)).sum
  let stocksUsed := (sol.placements.map SAPlacement.stock_idx).dedup
  let stockArea := (stocksUsed.map (fun i => (stocks.getD i dummyStock).area)).sum
  let efficiency := if 0 < stockArea then usedArea / stockArea * 100 else 0
  (100 - efficiency) / 100 + (1 / 2) * sol.unplaced_orders.length + (1 / 10) * stocksUsed.length

/-- Concrete stock for the C1 scenario: 10×10 metal sheet `S1`. -/
def c1Stock : Stock := { id := "S1", width := 10, height := 10, material_type := .metal, cost_per_unit := 50 }

/-- Concrete order for the C1 scenario: one circle of radius 2, metal. -/
def c1Order : Order := { id := "O1", shape := .circle 2 0 0, material_type := .metal }

/-- Concrete stock for the C3 scenario. -/
def c3Stock : Stock := { id := "S3", width := 10, height := 10, material_type := .metal }

/-- Concrete order for the C3 scenario: one 2×2 metal rectangle. -/
def c3Order : Order := { id := "O3", shape := .rect 2 2 0 0 .r0, material_type := .metal }

/-- An algorithm result violating the efficiency invariant (efficiency
150 ∉ [0, 100]), so that post-run validation fails. -/
def c3BadResult : CuttingResult := { efficiency_percentage := 150 }

/-- Concrete stock for the C4 scenario: 10×10 metal (area 100). -/
def c4Stock : Stock := { id := "S4", width := 10, height := 10, material_type := .metal }

/-- Concrete order for the C4 scenario: one 20×20 metal rectangle
(area 400 > 100, so the metal order area exceeds the metal stock area). -/
def c4Order : Order := { id := "O4", shape := .rect 20 20 0 0 .r0, material_type := .metal }

/-- Concrete stock for the C5 scenario. -/
def c5Stock : Stock := { id := "S5", width := 10, height := 10, material_type := .glass }

/-- First order of the C6 scenario: medium priority, area 1. -/
def c6OrderA : Order := { id := "A6", shape := .rect 1 1 0 0 .r0, priority := .medium }

/-- Second order of the C6 scenario: medium priority, area 4. -/
def c6OrderB : Order := { id := "B6", shape := .rect 2 2 0 0 .r0, priority := .medium }

/-- Concrete stock for the C7 scenario: a 1000×1000 sheet. -/
def c7Stock : Stock := { id := "S7", width := 1000, height := 1000, material_type := .metal }

/-- Shape already placed in the C7 scenario: a 500×500 rectangle at the
origin. -/
def c7Occupied : Shape := .rect 500 500 0 0 .r0

/-- Candidate shape of the C7 scenario: a 400×400 rectangle, to be tested
at `(501, 0)` — one unit away from the occupied rectangle, closer than the
kerf width 3. -/
def c7Shape : Shape := .rect 400 400 0 0 .r0

/-- Concrete stock for the C9 scenario. -/
def c9Stock : Stock := { id := "S9", width := 10, height := 10, material_type := .glass }

/-- Concrete order for the C9 scenario: one 2×2 glass rectangle that
obviously fits the stock. -/
def c9Order : Order := { id := "O9", shape := .rect 2 2 0 0 .r0, material_type := .glass }

/-- C1: running the pipeline (`BottomLeftAlgorithm.optimize` followed by
`Optimizer._validate_result` inside `Optimizer.optimize`) on a 10×10 metal
stock and a single circle order of radius 2 SUCCEEDS and places the circle
at `(0, 0)`; but the circle's `(x, y)` is its center in the geometry
kernel, so the disc contains the point `(-2, 0)`, which lies outside the
stock rectangle `[0, 10] × [0, 10]`, and the disc's bounding box starts at
`x = -2`.  The accepted result therefore violates the containment
invariant the claim states. -/
theorem sc_C1_accepted_circle_disc_escapes_stock :
    optimizer_optimize bottom_left_optimize [c1Stock] [c1Order] {} =
      .ok { total_stock_used := 1, total_orders_fulfilled := 1,
            efficiency_percentage := piQ * 2 ^ 2 / (10 * 10) * 100,
            placed_shapes := [⟨"O1_1", .circle 2 0 0, "S1"⟩],
            unfulfilled_orders := [], algorithm_used := "Bottom-Left Fill",
            total_cost := 50 } ∧
    Shape.contains_point (.circle 2 0 0) (-2) 0 = true ∧
    rectContainsPoint c1Stock.width c1Stock.height 0 0 .r0 (-2) 0 = false ∧
    (Shape.bounding_box (.circle 2 0 0)).1 = -2 := by
  refine ⟨?_, ?_, ?_, ?_⟩ <;> with_unfolding_all rfl

/-- C5 (counterexample): with one perfectly valid stock and an empty order
list, `Optimizer.optimize` does not succeed with an empty result — it
fails with `OptimizationError` (the wrapped `ValidationError` of
`validate_orders`, which rejects empty order lists). -/
theorem sc_C5_counterexample :
    optimizer_optimize bottom_left_optimize [c5Stock] [] {} = .error .optimizationError := by
  with_unfolding_all rfl

/-- C5 (amended): for every algorithm, stock list and configuration, an
optimization call with an empty order list fails with `OptimizationError`
(it never reaches the algorithm: either the configuration or the stocks are
rejected first, or `validate_orders` rejects the empty list). -/
theorem sc_C5_empty_orders_always_error
    (algo : List Stock → List Order → OptimizationConfig → CuttingResult)
    (stocks : List Stock) (config : OptimizationConfig) :
    optimizer_optimize algo stocks [] config = .error .optimizationError := by
  unfold optimizer_optimize
  split
  · rfl
  · split
    · rfl
    · rfl

/-- C7 (counterexample): with the default configuration (kerf width 3), the
feasibility test `_is_valid_position` accepts a 400×400 rectangle at
`(501, 0)` next to an occupied 500×500 rectangle at the origin — a gap of
exactly 1 < 3 — whereas the spec-described test with every occupied shape
inflated by `kerf/2` rejects it.  The feasibility test therefore performs
no kerf inflation. -/
theorem sc_C7_counterexample :
    is_valid_position c7Stock c7Shape 501 0 [c7Occupied] {} = true ∧
    is_valid_position_spec_inflated c7Stock c7Shape 501 0 [c7Occupied] {} = false ∧
    ({} : OptimizationConfig).cutting_width = 3 := by
  refine ⟨?_, ?_, ?_⟩ <;> with_unfolding_all rfl

/-- C7 (amended): the feasibility test `_is_valid_position` ignores
`cutting_width` entirely — its result is unchanged under any replacement of
the kerf width, so no clearance beyond plain non-overlap is enforced. -/
theorem sc_C7_feasibility_ignores_kerf (stock : Stock) (shape : Shape) (x y : ℚ)
    (occupied : List Shape) (config : OptimizationConfig) (k : ℚ) :
    is_valid_position stock shape x y occupied { config with cutting_width := k } =
      is_valid_position stock shape x y occupied config := rfl

/-- C9 (counterexample): on a 10×10 glass stock and a single 2×2 glass
order a feasible placement exists (the repo's own feasibility test accepts
`(0, 0)` and the bottom-left search finds it), yet `BestFitAlgorithm`
places nothing. -/
theorem sc_C9_counterexample :
    is_valid_position c9Stock c9Order.shape 0 0 [] {} = true ∧
    find_bottom_left_position c9Stock c9Order.shape [] {} = some (0, 0) ∧
    (best_fit_optimize [c9Stock] [c9Order] {}).placed_shapes = [] := by
  refine ⟨?_, ?_, ?_⟩ <;> with_unfolding_all rfl

/-- C9 (amended): `BestFitAlgorithm.optimize` is a placeholder — for every
input it returns an empty result: no placed shapes, every order
unfulfilled, zero stocks used, zero orders fulfilled, efficiency 0. -/
theorem sc_C9_best_fit_places_nothing (stocks : List Stock) (orders : List Order)
    (config : OptimizationConfig) :
    (best_fit_optimize stocks orders config).placed_shapes = [] ∧
    (best_fit_optimize stocks orders config).unfulfilled_orders = orders ∧
    (best_fit_optimize stocks orders config).total_stock_used = 0 ∧
    (best_fit_optimize stocks orders config).total_orders_fulfilled = 0 ∧
    (best_fit_optimize stocks orders config).efficiency_percentage = 0 :=
  ⟨rfl, rfl, rfl, rfl, rfl⟩

/-- C10: `CuttingResult.fulfillment_rate` returns `100` when no order was
fulfilled and none is unfulfilled (the zero-denominator case), and
otherwise — whenever `fulfilled + unfulfilled > 0` — returns
`100 · fulfilled / (fulfilled + unfulfilled)`. -/
theorem sc_C10_fulfillment_rate (r : CuttingResult) :
    (r.total_orders_fulfilled = 0 → r.unfulfilled_orders = [] →
      r.fulfillment_rate = 100) ∧
    (0 < r.total_orders_fulfilled + (r.unfulfilled_orders.length : ℤ) →
      r.fulfillment_rate = (r.total_orders_fulfilled : ℚ) /
        ((r.total_orders_fulfilled : ℚ) + (r.unfulfilled_orders.length : ℚ)) * 100) := by
  constructor
  · intro h1 h2
    unfold CuttingResult.fulfillment_rate
    rw [h1, h2]
    norm_num
  · intro h
    unfold CuttingResult.fulfillment_rate
    rw [if_pos h]
    push_cast
    ring

/-- C10 (witness): the zero-denominator default result has rate 100, and a
result with 3 fulfilled and 1 unfulfilled order has rate `3/4 · 100 = 75`. -/
theorem sc_C10_witness :
    ({} : CuttingResult).fulfillment_rate = 100 ∧
    ({ total_orders_fulfilled := 3, unfulfilled_orders := [dummyOrder] } :
      CuttingResult).fulfillment_rate = 75 := by
  constructor
  · exact (sc_C10_fulfillment_rate {}).1 rfl rfl
  · have h := (sc_C10_fulfillment_rate
      { total_orders_fulfilled := 3, unfulfilled_orders := [dummyOrder] }).2 (by decide)
    rw [h]
    norm_num

/-- C3 (counterexample): with valid inputs and an algorithm whose result
violates the efficiency invariant, `Optimizer.optimize` fails with
`OptimizationError` immediately — even though a conservative result
satisfying all invariants exists for this input (the empty first-fit-style
result passes validation), so the fallback the claim describes would have
succeeded and been returned. -/
theorem sc_C3_counterexample :
    validate_result { algorithm_used := "First Fit" } [c3Stock] = .ok () ∧
    optimizer_optimize (fun _ _ _ => c3BadResult) [c3Stock] [c3Order] {} =
      .error .optimizationError := by
  refine ⟨?_, ?_⟩ <;> with_unfolding_all rfl

/-- C3 (amended): when the configuration and the three input validators
pass and the strict post-run validation of the algorithm's (cost-adjusted)
result fails, `Optimizer.optimize` fails with `OptimizationError` directly:
there is no fallback attempt of any kind. -/
theorem sc_C3_no_fallback_on_invalid_result
    (algo : List Stock → List Order → OptimizationConfig → CuttingResult)
    (stocks : List Stock) (orders : List Order) (config : OptimizationConfig)
    (h1 : config.validate = [])
    (h2 : validate_stocks stocks = .ok ())
    (h3 : validate_orders orders = .ok ())
    (h4 : validate_stock_order_compatibility stocks orders = .ok ())
    (h5 : validate_result { algo stocks orders config with
            total_cost := resultTotalCost stocks (algo stocks orders config) } stocks =
          .error .optimizationError) :
    optimizer_optimize algo stocks orders config = .error .optimizationError := by
  unfold optimizer_optimize
  rw [h1]
  simp only [List.isEmpty_nil, not_true_eq_false, if_false, h2, h3, h4, h5]

/-- C3 (witness): the amended theorem applied to the concrete C3 scenario. -/
theorem sc_C3_witness :
    optimizer_optimize (fun _ _ _ => c3BadResult) [c3Stock] [c3Order] {} =
      .error .optimizationError :=
  sc_C3_no_fallback_on_invalid_result (fun _ _ _ => c3BadResult) [c3Stock] [c3Order] {}
    (by with_unfolding_all rfl) (by with_unfolding_all rfl) (by with_unfolding_all rfl)
    (by with_unfolding_all rfl) (by with_unfolding_all rfl)

/-- C4 (counterexample): when the metal order area (400) exceeds the metal
stock area (100), `validate_stock_order_compatibility` raises the generic
`ValidationError` — not `InsufficientStockError`, which the code base never
raises. -/
theorem sc_C4_counterexample :
    validate_stock_order_compatibility [c4Stock] [c4Order] = .error .validationError ∧
    ErrKind.validationError ≠ ErrKind.insufficientStock := by
  refine ⟨?_, ?_⟩
  · with_unfolding_all rfl
  · decide

/-- Membership in `firstOccurrences` agrees with membership in the list. -/
theorem mem_firstOccurrences {m : MaterialType} :
    ∀ {l : List MaterialType}, m ∈ firstOccurrences l ↔ m ∈ l := by
  intro l
  induction l with
  | nil => simp [firstOccurrences]
  | cons a rest ih =>
    by_cases hma : m = a
    · simp [firstOccurrences, hma]
    · simp [firstOccurrences, List.mem_filter, hma, ih]

/-- If some listed material's stock area is below its order area, the
material loop of the compatibility validator errors (with the generic
validation kind, as every one of its raises). -/
theorem checkMaterials_error (stocks : List Stock) (orders : List Order)
    (m : MaterialType) (hlt : totalStockArea stocks m < totalOrderArea orders m) :
    ∀ ms : List MaterialType, m ∈ ms →
      checkMaterials stocks orders ms = .error .validationError := by
  intro ms
  induction ms with
  | nil => intro h; cases h
  | cons a rest ih =>
    intro hmem
    unfold checkMaterials
    split
    · rfl
    · split
      · rfl
      · rename_i hne hge
        rcases List.mem_cons.mp hmem with heq | hrest
        · exact absurd (heq ▸ hlt) hge
        · exact ih hrest

/-- C4 (amended): whenever some material occurring in the orders has total
order area exceeding its total stock area, input validation fails — but
with the generic `ValidationError` kind, not with `InsufficientStockError`
(which is defined in `core/exceptions.py` yet never raised). -/
theorem sc_C4_insufficient_area_gives_validation_error
    (stocks : List Stock) (orders : List Order) (m : MaterialType)
    (hm : m ∈ orders.map Order.material_type)
    (hlt : totalStockArea stocks m < totalOrderArea orders m) :
    validate_stock_order_compatibility stocks orders = .error .validationError :=
  checkMaterials_error stocks orders m hlt _ (mem_firstOccurrences.mpr hm)

/-- C4 (witness): the amended theorem applied to the concrete C4 scenario. -/
theorem sc_C4_witness :
    validate_stock_order_compatibility [c4Stock] [c4Order] = .error .validationError :=
  sc_C4_insufficient_area_gives_validation_error [c4Stock] [c4Order] .metal
    (by with_unfolding_all decide) (by with_unfolding_all decide)

/-- C6 (counterexample): two orders of equal (medium) priority where the
first has the smaller area are returned in input order by
`preprocess_orders` with prioritization on — not in the
area-descending order the claim requires for equal priorities. -/
theorem sc_C6_counterexample :
    preprocess_orders [c6OrderA, c6OrderB] {} = [c6OrderA, c6OrderB] ∧
    c6OrderA.priority = c6OrderB.priority ∧
    c6OrderA.shape.area < c6OrderB.shape.area := by
  refine ⟨?_, ?_, ?_⟩
  · with_unfolding_all rfl
  · rfl
  · with_unfolding_all decide

/-- C6 (amended): with `prioritize_orders` off, `preprocess_orders` returns
the input list unchanged; with it on, the output is a permutation of the
input that is sorted by priority weight descending and is stable — any two
orders in input order whose weights are non-increasing (in particular any
two of equal priority) keep their relative order. Area plays no role. -/
theorem sc_C6_priority_sort_stable (orders : List Order) (config : OptimizationConfig) :
    (config.prioritize_orders = false → preprocess_orders orders config = orders) ∧
    (config.prioritize_orders = true →
      (preprocess_orders orders config).Perm orders ∧
      (preprocess_orders orders config).Pairwise
        (fun a b => b.priority.weight ≤ a.priority.weight) ∧
      (∀ a b : Order, [a, b].Sublist orders → b.priority.weight ≤ a.priority.weight →
        [a, b].Sublist (preprocess_orders orders config))) := by
  constructor
  · intro h
    unfold preprocess_orders
    rw [h]
    rfl
  · intro h
    unfold preprocess_orders
    rw [h]
    simp only [if_true]
    haveI : IsTotal Order (fun a b => b.priority.weight ≤ a.priority.weight) :=
      ⟨fun a b => Nat.le_total b.priority.weight a.priority.weight⟩
    haveI : IsTrans Order (fun a b => b.priority.weight ≤ a.priority.weight) :=
      ⟨fun _ _ _ hab hbc => Nat.le_trans hbc hab⟩
    refine ⟨List.perm_insertionSort _ _, List.sorted_insertionSort _ _, ?_⟩
    intro a b hsub hle
    exact List.pair_sublist_insertionSort hle hsub

/-- C6 (witness): the amended theorem applied to a concrete two-order list,
once with prioritization off (identity) and once with it on (the stable
sort keeps the equal-priority pair in input order). -/
theorem sc_C6_witness :
    preprocess_orders [c6OrderA, c6OrderB] { prioritize_orders := false } =
      [c6OrderA, c6OrderB] ∧
    (preprocess_orders [c6OrderA, c6OrderB] {}).Perm [c6OrderA, c6OrderB] ∧
    [c6OrderA, c6OrderB].Sublist (preprocess_orders [c6OrderA, c6OrderB] {}) := by
  refine ⟨?_, ?_, ?_⟩
  · exact (sc_C6_priority_sort_stable [c6OrderA, c6OrderB] { prioritize_orders := false }).1 rfl
  · exact ((sc_C6_priority_sort_stable [c6OrderA, c6OrderB] {}).2 rfl).1
  · exact ((sc_C6_priority_sort_stable [c6OrderA, c6OrderB] {}).2 rfl).2.2 c6OrderA c6OrderB
      (List.Sublist.refl _) (by decide)

/-- A fold with a product state whose components update independently
splits into two folds. -/
theorem foldl_split {β : Type} (h : β → ℚ) (k : β → ℕ) :
    ∀ (l : List β) (a : ℚ) (c : List ℕ),
      l.foldl (fun st b => (st.1 + h b, setInsertNat st.2 (k b))) (a, c) =
        (l.foldl (fun s b => s + h b) a, l.foldl (fun s b => setInsertNat s (k b)) c)
  | [], _, _ => rfl
  | b :: l, a, c => foldl_split h k l (a + h b) (setInsertNat c (k b))

/-- Folding `+` over mapped values is the sum of the mapped list. -/
theorem foldl_add_sum {β : Type} (h : β → ℚ) :
    ∀ (l : List β) (a : ℚ), l.foldl (fun s b => s + h b) a = a + (l.map h).sum
  | [], a => by simp
  | b :: l, a => by
    rw [List.foldl_cons, foldl_add_sum h l (a + h b), List.map_cons, List.sum_cons]
    ring

/-- Membership in a set-insert. -/
theorem mem_setInsertNat {x b : ℕ} {l : List ℕ} :
    x ∈ setInsertNat l b ↔ x ∈ l ∨ x = b := by
  unfold setInsertNat
  split
  · rename_i hb
    constructor
    · exact Or.inl
    · rintro (h | rfl)
      · exact h
      · exact hb
  · simp

/-- Membership after folding set-inserts over a list. -/
theorem mem_foldl_setInsertNat (x : ℕ) :
    ∀ (l : List ℕ) (init : List ℕ),
      x ∈ l.foldl setInsertNat init ↔ x ∈ init ∨ x ∈ l
  | [], init => by simp
  | b :: l, init => by
    rw [List.foldl_cons, mem_foldl_setInsertNat x l (setInsertNat init b)]
    rw [mem_setInsertNat]
    simp [List.mem_cons]
    tauto

/-- Set-inserts keep the list duplicate-free. -/
theorem nodup_setInsertNat {l : List ℕ} (h : l.Nodup) (b : ℕ) :
    (setInsertNat l b).Nodup := by
  unfold setInsertNat
  split
  · exact h
  · rename_i hb
    simp [List.nodup_append, h, hb]

/-- Folding set-inserts keeps the accumulator duplicate-free. -/
theorem nodup_foldl_setInsertNat :
    ∀ (l : List ℕ) (init : List ℕ), init.Nodup → (l.foldl setInsertNat init).Nodup
  | [], _, h => h
  | b :: l, init, h => nodup_foldl_setInsertNat l (setInsertNat init b) (nodup_setInsertNat h b)

/-- The insertion-order set built by folding `setInsertNat` holds exactly
the distinct elements of the list, i.e. it is a permutation of `dedup`. -/
theorem foldl_setInsertNat_perm_dedup (l : List ℕ) :
    (l.foldl setInsertNat []).Perm l.dedup := by
  refine (List.perm_ext_iff_of_nodup
    (nodup_foldl_setInsertNat l [] List.nodup_nil) l.nodup_dedup).mpr ?_
  intro a
  rw [mem_foldl_setInsertNat, List.mem_dedup]
  simp

/-- C8: the simulated-annealing evaluation — which walks the placement list
accumulating areas and an insertion-ordered set of used stock indices —
computes exactly the spec's cost
`(100 - efficiency)/100 + 0.5 · unplaced + 0.1 · stocks_used`, with the
efficiency taken over the distinct stocks actually holding placements. -/
theorem sc_C8_sa_cost_formula (sol : SASolution) (stocks : List Stock)
    (orders : List Order) :
    evaluate_solution sol stocks orders = spec_sa_cost sol stocks orders := by
  unfold evaluate_solution spec_sa_cost
  rw [foldl_split (fun p => (orders.getD p.order_idx dummyOrder).shape.area)
    (fun p => p.stock_idx) sol.placements 0 []]
  have hmap : sol.placements.foldl (fun s p => setInsertNat s p.stock_idx) [] =
      (sol.placements.map SAPlacement.stock_idx).foldl setInsertNat [] := by
    rw [List.foldl_map]
  have hperm := foldl_setInsertNat_perm_dedup (sol.placements.map SAPlacement.stock_idx)
  rw [hmap]
  rw [foldl_add_sum (fun p => (orders.getD p.order_idx dummyOrder).shape.area) sol.placements 0]
  dsimp only
  rw [foldl_add_sum (fun i => (stocks.getD i dummyStock).area) _ 0]
  rw [(hperm.map (fun i => (stocks.getD i dummyStock).area)).sum_eq, hperm.length_eq]
  ring


theorem listMax_aabb (a b : ℚ) : listMax [a, a, b, b] = max a b := by
  simp [listMax, List.foldl, max_self, max_assoc]

theorem listMin_aabb (a b : ℚ) : listMin [a, a, b, b] = min a b := by
  simp [listMin, List.foldl, min_self, min_assoc]

theorem listMax_abba (a b : ℚ) : listMax [a, b, b, a] = max a b := by
  simp [listMax, List.foldl, max_self, max_assoc, max_comm, max_left_comm]

theorem listMin_abba (a b : ℚ) : listMin [a, b, b, a] = min a b := by
  simp [listMin, List.foldl, min_self, min_assoc, min_comm, min_left_comm]

theorem edgeAxes_rot0 (w h x y : ℚ) (hw : 0 < w) (hh : 0 < h) :
    edgeAxes (rectCorners w h x y .r0) = [(0, 1), (-1, 0), (0, -1), (1, 0)] := by
  have h4 : List.range 4 = [0, 1, 2, 3] := by decide
  unfold edgeAxes rectCorners axisOf
  rw [h4]
  norm_num [abs_of_pos hw, abs_of_pos hh, List.reduceOption, ne_of_gt hw, ne_of_gt hh]
  rw [if_pos hw, if_pos hh, if_pos hw, if_pos hh]
  rfl



theorem separatedOn_ax_pos_x (w1 h1 x1 y1 w2 h2 x2 y2 : ℚ)
    (hw1 : 0 < w1) (hw2 : 0 < w2) :
    separatedOn (rectCorners w1 h1 x1 y1 .r0) (rectCorners w2 h2 x2 y2 .r0) (1, 0) =
      decide (x1 + w1 < x2 ∨ x2 + w2 < x1) := by
  unfold separatedOn projList rectCorners
  simp only [List.map_cons, List.map_nil, mul_one, mul_zero, add_zero, one_mul, zero_mul, zero_add]
  rw [listMax_abba, listMin_abba, listMax_abba, listMin_abba]
  rw [max_eq_right (by linarith : x1 ≤ x1 + w1), min_eq_left (by linarith : x1 ≤ x1 + w1)]
  rw [max_eq_right (by linarith : x2 ≤ x2 + w2), min_eq_left (by linarith : x2 ≤ x2 + w2)]

theorem separatedOn_ax_neg_x (w1 h1 x1 y1 w2 h2 x2 y2 : ℚ)
    (hw1 : 0 < w1) (hw2 : 0 < w2) :
    separatedOn (rectCorners w1 h1 x1 y1 .r0) (rectCorners w2 h2 x2 y2 .r0) (-1, 0) =
      decide (x2 + w2 < x1 ∨ x1 + w1 < x2) := by
  unfold separatedOn projList rectCorners
  simp only [List.map_cons, List.map_nil, mul_one, mul_zero, add_zero, one_mul, zero_mul,
    zero_add, mul_neg_one, neg_add_rev]
  rw [listMax_abba, listMin_abba, listMax_abba, listMin_abba]
  rw [max_eq_left (by linarith : -w1 + -x1 ≤ -x1), min_eq_right (by linarith : -w1 + -x1 ≤ -x1)]
  rw [max_eq_left (by linarith : -w2 + -x2 ≤ -x2), min_eq_right (by linarith : -w2 + -x2 ≤ -x2)]
  rw [decide_eq_decide]
  constructor
  · rintro (h | h)
    · exact Or.inl (by linarith)
    · exact Or.inr (by linarith)
  · rintro (h | h)
    · exact Or.inl (by linarith)
    · exact Or.inr (by linarith)

theorem separatedOn_ax_pos_y (w1 h1 x1 y1 w2 h2 x2 y2 : ℚ)
    (hh1 : 0 < h1) (hh2 : 0 < h2) :
    separatedOn (rectCorners w1 h1 x1 y1 .r0) (rectCorners w2 h2 x2 y2 .r0) (0, 1) =
      decide (y1 + h1 < y2 ∨ y2 + h2 < y1) := by
  unfold separatedOn projList rectCorners
  simp only [List.map_cons, List.map_nil, mul_one, mul_zero, add_zero, one_mul, zero_mul, zero_add]
  rw [listMax_aabb, listMin_aabb, listMax_aabb, listMin_aabb]
  rw [max_eq_right (by linarith : y1 ≤ y1 + h1), min_eq_left (by linarith : y1 ≤ y1 + h1)]
  rw [max_eq_right (by linarith : y2 ≤ y2 + h2), min_eq_left (by linarith : y2 ≤ y2 + h2)]

theorem separatedOn_ax_neg_y (w1 h1 x1 y1 w2 h2 x2 y2 : ℚ)
    (hh1 : 0 < h1) (hh2 : 0 < h2) :
    separatedOn (rectCorners w1 h1 x1 y1 .r0) (rectCorners w2 h2 x2 y2 .r0) (0, -1) =
      decide (y2 + h2 < y1 ∨ y1 + h1 < y2) := by
  unfold separatedOn projList rectCorners
  simp only [List.map_cons, List.map_nil, mul_one, mul_zero, add_zero, one_mul, zero_mul,
    zero_add, mul_neg_one, neg_add_rev]
  rw [listMax_aabb, listMin_aabb, listMax_aabb, listMin_aabb]
  rw [max_eq_left (by linarith : -h1 + -y1 ≤ -y1), min_eq_right (by linarith : -h1 + -y1 ≤ -y1)]
  rw [max_eq_left (by linarith : -h2 + -y2 ≤ -y2), min_eq_right (by linarith : -h2 + -y2 ≤ -y2)]
  rw [decide_eq_decide]
  constructor
  · rintro (h | h)
    · exact Or.inl (by linarith)
    · exact Or.inr (by linarith)
  · rintro (h | h)
    · exact Or.inl (by linarith)
    · exact Or.inr (by linarith)

/-- C2 (amended): for axis-aligned rectangles with positive dimensions,
`Rectangle.overlaps` (the SAT test of `_overlaps_rectangle`; there is no
axis-aligned short-circuit in the source) returns true if and only if the
NON-strict interval conditions hold:
`b.xmin ≤ a.xmax ∧ a.xmin ≤ b.xmax ∧ b.ymin ≤ a.ymax ∧ a.ymin ≤ b.ymax` —
so rectangles that merely touch along an edge ARE reported as
overlapping. -/
theorem sc_C2_overlap_iff (w1 h1 x1 y1 w2 h2 x2 y2 : ℚ)
    (hw1 : 0 < w1) (hh1 : 0 < h1) (hw2 : 0 < w2) (hh2 : 0 < h2) :
    Shape.overlaps (.rect w1 h1 x1 y1 .r0) (.rect w2 h2 x2 y2 .r0) = true ↔
      (x2 ≤ x1 + w1 ∧ x1 ≤ x2 + w2 ∧ y2 ≤ y1 + h1 ∧ y1 ≤ y2 + h2) := by
  show rectOverlapsRect w1 h1 x1 y1 .r0 w2 h2 x2 y2 .r0 = true ↔ _
  unfold rectOverlapsRect
  dsimp only
  rw [edgeAxes_rot0 w1 h1 x1 y1 hw1 hh1, edgeAxes_rot0 w2 h2 x2 y2 hw2 hh2]
  simp only [List.cons_append, List.nil_append, List.all_cons, List.all_nil,
    separatedOn_ax_pos_x w1 h1 x1 y1 w2 h2 x2 y2 hw1 hw2,
    separatedOn_ax_neg_x w1 h1 x1 y1 w2 h2 x2 y2 hw1 hw2,
    separatedOn_ax_pos_y w1 h1 x1 y1 w2 h2 x2 y2 hh1 hh2,
    separatedOn_ax_neg_y w1 h1 x1 y1 w2 h2 x2 y2 hh1 hh2]
  simp only [Bool.and_eq_true, Bool.not_eq_true', decide_eq_false_iff_not, not_or, not_lt,
    and_true]
  constructor
  · rintro ⟨⟨h1a, h1b⟩, ⟨h2a, h2b⟩, ⟨h3a, h3b⟩, _⟩
    exact ⟨by linarith, by linarith, by linarith, by linarith⟩
  · rintro ⟨ha, hb, hc, hd⟩
    exact ⟨⟨by linarith, by linarith⟩, ⟨by linarith, by linarith⟩, ⟨by linarith, by linarith⟩,
      ⟨by linarith, by linarith⟩, ⟨by linarith, by linarith⟩, ⟨by linarith, by linarith⟩,
      ⟨by linarith, by linarith⟩, ⟨by linarith, by linarith⟩⟩

/-- C2 (counterexample): two 100×100 rectangles touching along an edge
(`a.xmax = 100 = b.xmin`): the code reports them as overlapping, while the
claim's strict-inequality condition fails, so by the claim they would have
to be non-overlapping. -/
theorem sc_C2_counterexample :
    Shape.overlaps (.rect 100 100 0 0 .r0) (.rect 100 100 100 0 .r0) = true ∧
    ¬ ((0 : ℚ) + 100 > 100 ∧ (100 : ℚ) + 100 > 0 ∧
       (0 : ℚ) + 100 > 0 ∧ (0 : ℚ) + 100 > 0) := by
  constructor
  · with_unfolding_all rfl
  · norm_num

/-- C2 (witness): the amended iff applied to two touching unit squares —
the non-strict conditions hold with equality, so the code reports
overlap. -/
theorem sc_C2_witness :
    Shape.overlaps (.rect 1 1 0 0 .r0) (.rect 1 1 1 0 .r0) = true :=
  (sc_C2_overlap_iff 1 1 0 0 1 1 1 0 (by norm_num) (by norm_num) (by norm_num)
    (by norm_num)).mpr (by norm_num)

end SCO
